import Mathlib

/-!
Verification of the guess-the-color game core (colorTest_main.c).

The development shallowly embeds the core of the program:
- the `colorMix_t` structure and the `match` comparison (named `matchMix`
  here since `match` is reserved in Lean),
- the stateless helper `guess` (menu navigation and selection),
- the nested test controller `testFSM` with its static variables made an
  explicit state record and its hardware effects (LED commands, joystick
  reads, the result written through the pointer) made explicit outputs,
- the top-level `ScreensFSM` with its static variables made an explicit
  state record and external signals (timer expiry, button edges, joystick
  samples) made explicit inputs.

C `unsigned int` arithmetic is modelled on `Nat` with explicit reduction
modulo 2^32 where the source increments or subtracts.
-/

namespace ColorTest

/-- Modulus of C `unsigned int` arithmetic. -/
def UINT_MOD : Nat := 4294967296

/-- `#define OPENING_WAIT 1000` — 1 second. -/
def OPENING_WAIT : Nat := 1000

/-- `#define ENDTEST_WAIT 2000` — 2 seconds (defined in the source, see C2). -/
def ENDTEST_WAIT : Nat := 2000

/-- `#define TOP_OPTION_POS 1` — row of the first menu option. -/
def TOP_OPTION_POS : Nat := 1

/-- `#define BOTTOM_OPTION_POS 4` — row of the last menu option (End test). -/
def BOTTOM_OPTION_POS : Nat := 4

/-- `typedef enum {RED, GREEN, BLUE} color_t;` -/
inductive color_t where
  | RED
  | GREEN
  | BLUE
deriving DecidableEq, Repr

/-- `typedef struct { bool hasRed; bool hasGreen; bool hasBlue; } colorMix_t;` -/
structure colorMix_t where
  hasRed : Bool
  hasGreen : Bool
  hasBlue : Bool
deriving DecidableEq, Repr

/-- `bool match(colorMix_t* guessColor, colorMix_t* actualColor)` — component-wise
equality check, comparing Blue, then Green, then Red. (`match` is a Lean
keyword, hence the name `matchMix`.) -/
def matchMix (guessColor actualColor : colorMix_t) : Bool :=
  if (guessColor.hasBlue == actualColor.hasBlue) &&
     (guessColor.hasGreen == actualColor.hasGreen) &&
     (guessColor.hasRed == actualColor.hasRed) then
    true
  else
    false

/-- Result of one call of `guess`: the updated `*arrowPosPointer`, the updated
`*guessColor`, and the returned `finished` flag. -/
structure GuessResult where
  arrowPos : Nat
  guessColor : colorMix_t
  finished : Bool
deriving DecidableEq, Repr

/-- `bool guess(unsigned int * arrowPosPointer, colorMix_t* guessColor)`.

The two button reads `Booster_Bottom_Button_Pushed()` and
`Booster_Top_Button_Pushed()` become the explicit edge inputs
`bottomPushed` and `topPushed`; the display calls have no bearing on the
returned data and are not modelled. `arrowPos++` and
`choice = arrowPos - TOP_OPTION_POS` are C unsigned arithmetic, modelled
modulo 2^32; the `switch (choice)` cases are `RED = 0`, `GREEN = 1`,
`BLUE = 2` and a default that sets `finished = true`. -/
def guess (bottomPushed topPushed : Bool) (arrowPos0 : Nat)
    (guessColor : colorMix_t) : GuessResult :=
  let arrowPos :=
    if bottomPushed then
      let a := (arrowPos0 + 1) % UINT_MOD
      if a > BOTTOM_OPTION_POS then TOP_OPTION_POS else a
    else arrowPos0
  if topPushed then
    let choice := (arrowPos + (UINT_MOD - TOP_OPTION_POS)) % UINT_MOD
    if choice = 0 then
      ⟨arrowPos, { guessColor with hasRed := true }, false⟩
    else if choice = 1 then
      ⟨arrowPos, { guessColor with hasGreen := true }, false⟩
    else if choice = 2 then
      ⟨arrowPos, { guessColor with hasBlue := true }, false⟩
    else
      ⟨arrowPos, guessColor, true⟩
  else
    ⟨arrowPos, guessColor, false⟩

/-- The `static enum {setup, lightup, testing} testState` of `testFSM`. -/
inductive testState_t where
  | setup
  | lightup
  | testing
deriving DecidableEq, Repr

/-- The static variables of `testFSM`, made an explicit state record:
`static colorMix_t actualColor, guessColor; static color_t colorIndex;
static testState; static unsigned int arrowPos`. `colorIndex` is a C enum
(an `int`) that the source increments past `BLUE`, so it is modelled as a
number (`RED = 0`, `GREEN = 1`, `BLUE = 2`). -/
structure TestFSMState where
  actualColor : colorMix_t
  guessColor : colorMix_t
  colorIndex : Nat
  testState : testState_t
  arrowPos : Nat
deriving DecidableEq, Repr

/-- `randomBit = (vx%2) ^ (vy%2);` — the int xor of the two parities,
converted to C `bool` (nonzero means true). -/
def randomBit (vx vy : Nat) : Bool :=
  ((vx % 2) ^^^ (vy % 2)) != 0

/-- The `if (newTest) { ... }` reset block of `testFSM` (its effect on the
static variables): `testState = setup; colorIndex = RED;
arrowPos = TOP_OPTION_POS;` and the `guessColor` fields set to false.
Note the block does not touch `actualColor`. -/
def testReset (s : TestFSMState) : TestFSMState :=
  { s with
    testState := testState_t.setup
    colorIndex := 0
    arrowPos := TOP_OPTION_POS
    guessColor := ⟨false, false, false⟩ }

/-- The LED commands issued by the reset block, in source order:
`TurnOFF_Booster_Blue_LED(); TurnOFF_Booster_Green_LED();
TurnOFF_Booster_Red_LED();`. -/
def resetLedCmds : List (color_t × Bool) :=
  [(color_t.BLUE, false), (color_t.GREEN, false), (color_t.RED, false)]

/-- Result of one call of `testFSM`: the updated static state, the returned
`finished` flag, the value written through `resultPointer` (`none` when no
write happens), the LED on/off commands issued during the call in order,
and whether `getSampleJoyStick` was called during the call. -/
structure TestPollOut where
  st : TestFSMState
  finished : Bool
  result : Option Bool
  ledCmds : List (color_t × Bool)
  sampled : Bool
deriving DecidableEq, Repr

/-- `bool testFSM(bool newTest, bool* resultPointer)`.

The joystick read `getSampleJoyStick(&vx, &vy)` becomes the explicit
inputs `vx vy`, and the button edges consumed by the nested `guess` call
become `bottomPushed topPushed`. In the `setup` state the inner
`switch (colorIndex)` assigns the random bit to one channel
(`RED`/`GREEN`/`BLUE`) or, in the default case, moves to `lightup`; then
`colorIndex++` runs (unsigned-int-like increment of the enum value). In
`lightup` the LEDs whose flags are true are turned on (Red, Green, Blue
order) and the state moves to `testing`. In `testing` the call delegates
to `guess`. After the switch, `if (finished) *resultPointer =
match(&guessColor, &actualColor);`. -/
def testFSM (newTest : Bool) (vx vy : Nat) (bottomPushed topPushed : Bool)
    (s0 : TestFSMState) : TestPollOut :=
  let s := if newTest then testReset s0 else s0
  let cmds0 : List (color_t × Bool) := if newTest then resetLedCmds else []
  match s.testState with
  | testState_t.setup =>
      let b := randomBit vx vy
      let s1 :=
        if s.colorIndex = 0 then
          { s with actualColor := { s.actualColor with hasRed := b } }
        else if s.colorIndex = 1 then
          { s with actualColor := { s.actualColor with hasGreen := b } }
        else if s.colorIndex = 2 then
          { s with actualColor := { s.actualColor with hasBlue := b } }
        else
          { s with testState := testState_t.lightup }
      let s2 := { s1 with colorIndex := (s1.colorIndex + 1) % UINT_MOD }
      ⟨s2, false, none, cmds0, true⟩
  | testState_t.lightup =>
      let onCmds :=
        (if s.actualColor.hasRed then [(color_t.RED, true)] else []) ++
        (if s.actualColor.hasGreen then [(color_t.GREEN, true)] else []) ++
        (if s.actualColor.hasBlue then [(color_t.BLUE, true)] else [])
      ⟨{ s with testState := testState_t.testing }, false, none,
        cmds0 ++ onCmds, false⟩
  | testState_t.testing =>
      let g := guess bottomPushed topPushed s.arrowPos s.guessColor
      let s1 := { s with arrowPos := g.arrowPos, guessColor := g.guessColor }
      let res :=
        if g.finished then some (matchMix g.guessColor s.actualColor)
        else none
      ⟨s1, g.finished, res, cmds0, false⟩

/-- The `static enum states {INCEPTION, OPENING, INSTRUCTIONS, TEST, TESTEND}`
of `ScreensFSM`. -/
inductive screenState_t where
  | INCEPTION
  | OPENING
  | INSTRUCTIONS
  | TEST
  | TESTEND
deriving DecidableEq, Repr

/-- The static variables of `ScreensFSM`: the screen state, the `newTest`
flag, and (transitively) the static state of the nested `testFSM`. The
`OneShotSWTimer_t OST` handle itself lives in the timer collaborator; its
observable behaviour enters through the `swTimerExpired` input and the
`timerInit` output below. -/
structure ScreensState where
  state : screenState_t
  newTest : Bool
  test : TestFSMState
deriving DecidableEq, Repr

/-- External signals read during one call of `ScreensFSM` (and its nested
`testFSM` call): the value `OneShotSWTimerExpired(&OST)` would return, the
two button edges, and the joystick sample. -/
structure ScreensInput where
  swTimerExpired : Bool
  bottomPushed : Bool
  topPushed : Bool
  vx : Nat
  vy : Nat
deriving DecidableEq, Repr

/-- Observable outcome of one call of `ScreensFSM`: the updated static
state, the four draw flags (`drawEndScreen` carries the `result` value it
is rendered with), and `timerInit` — `some d` when `startSWTimer` is set,
where `d` is the duration passed to `InitOneShotSWTimer`. -/
structure ScreensOut where
  st : ScreensState
  drawOpeningScreen : Bool
  drawInstructionsScreen : Bool
  drawTestScreen : Bool
  drawEndScreen : Option Bool
  timerInit : Option Nat
deriving DecidableEq, Repr

/-- `void ScreensFSM()`.

Faithful to the `switch (state)`: INCEPTION unconditionally moves to
OPENING, draws the opening screen and starts the timer; OPENING waits for
timer expiry then draws instructions; INSTRUCTIONS waits for the bottom
button, sets `newTest` and draws the test screen; TEST calls
`testFSM(newTest, &result)`, on `finished` moves to TESTEND, draws the end
screen with `result` and starts the timer, and always clears `newTest`;
TESTEND waits for timer expiry then draws instructions. The action block
at the end always initializes the timer with `OPENING_WAIT` when
`startSWTimer` is set. -/
def ScreensFSM (i : ScreensInput) (s : ScreensState) : ScreensOut :=
  match s.state with
  | screenState_t.INCEPTION =>
      ⟨{ s with state := screenState_t.OPENING },
        true, false, false, none, some OPENING_WAIT⟩
  | screenState_t.OPENING =>
      if i.swTimerExpired then
        ⟨{ s with state := screenState_t.INSTRUCTIONS },
          false, true, false, none, none⟩
      else
        ⟨s, false, false, false, none, none⟩
  | screenState_t.INSTRUCTIONS =>
      if i.bottomPushed then
        ⟨{ s with state := screenState_t.TEST, newTest := true },
          false, false, true, none, none⟩
      else
        ⟨s, false, false, false, none, none⟩
  | screenState_t.TEST =>
      let o := testFSM s.newTest i.vx i.vy i.bottomPushed i.topPushed s.test
      if o.finished then
        ⟨{ s with
             state := screenState_t.TESTEND
             newTest := false
             test := o.st },
          false, false, false, o.result, some OPENING_WAIT⟩
      else
        ⟨{ s with newTest := false, test := o.st },
          false, false, false, none, none⟩
  | screenState_t.TESTEND =>
      if i.swTimerExpired then
        ⟨{ s with state := screenState_t.INSTRUCTIONS },
          false, true, false, none, none⟩
      else
        ⟨s, false, false, false, none, none⟩

/-- Iterated polling of `ScreensFSM` over a list of per-tick inputs,
tracking the static state (the `while (1) ScreensFSM();` loop of `main`). -/
def screensRun (inputs : List ScreensInput) (s : ScreensState) : ScreensState :=
  inputs.foldl (fun st i => (ScreensFSM i st).st) s

/-- The all-false color mix (concrete value used in instantiations). -/
def mix0 : colorMix_t := ⟨false, false, false⟩

/-- A concrete `testFSM` state in the testing phase with the arrow on the
End row (used in instantiations). -/
def tstTesting : TestFSMState := ⟨mix0, mix0, 4, testState_t.testing, 4⟩

/-- A concrete `ScreensFSM` state in the OPENING screen state (used in
instantiations). -/
def scrOpening : ScreensState := ⟨screenState_t.OPENING, false, tstTesting⟩

/-- A concrete input tick with no external signal active. -/
def inpQuiet : ScreensInput := ⟨false, false, false, 0, 0⟩

/-- A concrete input tick on which the one-shot timer reports expired. -/
def inpExpired : ScreensInput := ⟨true, false, false, 0, 0⟩

/-! ## Theorems -/

/-- C5: `match` is symmetric and reflexive: for all ColorMix values `a` and
`b`, `match(a, b) == match(b, a)`, and `match(a, a)` is always true
(component-wise equality of the three boolean flags). -/
theorem C5_match_symm_refl (a b : colorMix_t) :
    matchMix a b = matchMix b a ∧ matchMix a a = true := by
  rcases a with ⟨a1, a2, a3⟩
  rcases b with ⟨b1, b2, b3⟩
  cases a1 <;> cases a2 <;> cases a3 <;> cases b1 <;> cases b2 <;> cases b3 <;>
    decide

/-- C4: for every MenuPosition in `[TOP_OPTION_POS, BOTTOM_OPTION_POS]` and
every poll of `guess`, a move-button edge advances the position by exactly
one row, wrapping from the End row back to the first selectable row, and
the position returned to the caller is always within the range. -/
theorem C4_menu_wrap (bp tp : Bool) (pos : Nat) (g : colorMix_t)
    (h1 : TOP_OPTION_POS ≤ pos) (h2 : pos ≤ BOTTOM_OPTION_POS) :
    (bp = true →
      (guess bp tp pos g).arrowPos =
        if pos = BOTTOM_OPTION_POS then TOP_OPTION_POS else pos + 1) ∧
    TOP_OPTION_POS ≤ (guess bp tp pos g).arrowPos ∧
    (guess bp tp pos g).arrowPos ≤ BOTTOM_OPTION_POS := by
  rcases g with ⟨g1, g2, g3⟩
  simp only [TOP_OPTION_POS, BOTTOM_OPTION_POS] at h1 h2 ⊢
  interval_cases pos <;> cases bp <;> cases tp <;>
    cases g1 <;> cases g2 <;> cases g3 <;> decide

/-- C4 witness: instance at the End row (4): the arrow wraps to the top
row and stays in range. -/
theorem C4_menu_wrap_witness :
    (TOP_OPTION_POS ≤ 4 ∧ 4 ≤ BOTTOM_OPTION_POS) ∧
    ((true = true →
       (guess true false 4 ⟨false, false, false⟩).arrowPos =
         if 4 = BOTTOM_OPTION_POS then TOP_OPTION_POS else 4 + 1) ∧
     TOP_OPTION_POS ≤ (guess true false 4 ⟨false, false, false⟩).arrowPos ∧
     (guess true false 4 ⟨false, false, false⟩).arrowPos ≤ BOTTOM_OPTION_POS) :=
  ⟨by decide,
   C4_menu_wrap true false 4 ⟨false, false, false⟩ (by decide) (by decide)⟩

/-- C6: selecting the same non-End row (rows 1, 2, 3, mapping to Red,
Green, Blue) a second time is idempotent: the corresponding flag is set
true, no other flag changes, and a second selection at the same row leaves
the guessed ColorMix unchanged; such a selection never reports
completion. -/
theorem C6_select_idempotent (pos : Nat) (g : colorMix_t)
    (h1 : TOP_OPTION_POS ≤ pos) (h2 : pos ≤ 3) :
    ((guess false true pos ((guess false true pos g).guessColor)).guessColor =
      (guess false true pos g).guessColor) ∧
    (pos = 1 → (guess false true pos g).guessColor = { g with hasRed := true }) ∧
    (pos = 2 → (guess false true pos g).guessColor = { g with hasGreen := true }) ∧
    (pos = 3 → (guess false true pos g).guessColor = { g with hasBlue := true }) ∧
    (guess false true pos g).finished = false := by
  rcases g with ⟨g1, g2, g3⟩
  simp only [TOP_OPTION_POS] at h1
  interval_cases pos <;> cases g1 <;> cases g2 <;> cases g3 <;> decide

/-- C6 witness: instance at the Green row (2) with Red already guessed. -/
theorem C6_select_idempotent_witness :
    (TOP_OPTION_POS ≤ 2 ∧ 2 ≤ 3) ∧
    (((guess false true 2
        ((guess false true 2 (⟨true, false, false⟩ : colorMix_t)).guessColor)).guessColor =
       (guess false true 2 (⟨true, false, false⟩ : colorMix_t)).guessColor) ∧
     (2 = 1 → (guess false true 2 (⟨true, false, false⟩ : colorMix_t)).guessColor =
       { (⟨true, false, false⟩ : colorMix_t) with hasRed := true }) ∧
     (2 = 2 → (guess false true 2 (⟨true, false, false⟩ : colorMix_t)).guessColor =
       { (⟨true, false, false⟩ : colorMix_t) with hasGreen := true }) ∧
     (2 = 3 → (guess false true 2 (⟨true, false, false⟩ : colorMix_t)).guessColor =
       { (⟨true, false, false⟩ : colorMix_t) with hasBlue := true }) ∧
     (guess false true 2 (⟨true, false, false⟩ : colorMix_t)).finished = false) :=
  ⟨by decide,
   C6_select_idempotent 2 ⟨true, false, false⟩ (by decide) (by decide)⟩

/-- C7: when both the move edge and the select edge fire during the same
poll, the move is applied first and the select is evaluated against the
post-move row: the whole call behaves exactly like a select-only call
started at the advanced (wrapped) row, for every in-range starting
MenuPosition. -/
theorem C7_move_before_select (pos : Nat) (g : colorMix_t)
    (h1 : TOP_OPTION_POS ≤ pos) (h2 : pos ≤ BOTTOM_OPTION_POS) :
    guess true true pos g =
      guess false true
        (if pos = BOTTOM_OPTION_POS then TOP_OPTION_POS else pos + 1) g := by
  rcases g with ⟨g1, g2, g3⟩
  simp only [TOP_OPTION_POS, BOTTOM_OPTION_POS] at h1 h2 ⊢
  interval_cases pos <;> cases g1 <;> cases g2 <;> cases g3 <;> decide

/-- C7 witness: instance at row 3 (Blue): after the move the arrow is on
the End row, so the simultaneous select reports completion. -/
theorem C7_move_before_select_witness :
    (TOP_OPTION_POS ≤ 3 ∧ 3 ≤ BOTTOM_OPTION_POS) ∧
    guess true true 3 ⟨false, false, false⟩ =
      guess false true
        (if 3 = BOTTOM_OPTION_POS then TOP_OPTION_POS else 3 + 1)
        ⟨false, false, false⟩ :=
  ⟨by decide,
   C7_move_before_select 3 ⟨false, false, false⟩ (by decide) (by decide)⟩

/-- C1 counterexample: the claim that after the reset block both mixes are
all-false fails: starting a new test from a prior state whose actual
ColorMix is all-true, the reset block leaves the actual ColorMix
untouched (all-true, not all-false); even at the end of that whole poll
the Green and Blue flags of the actual mix are still true. -/
theorem C1_reset_counterexample :
    (testReset ⟨⟨true, true, true⟩, ⟨true, true, true⟩, 7, testState_t.testing, 3⟩).actualColor ≠
      ⟨false, false, false⟩ ∧
    (testFSM true 0 0 false false
      ⟨⟨true, true, true⟩, ⟨true, true, true⟩, 7, testState_t.testing, 3⟩).st.actualColor.hasGreen
      = true := by
  decide

/-- C1 (amended): for every call of `testFSM` with `newTest` true, after the
reset block runs the guessed ColorMix is all-false, the arrow is at the
first selectable row, the phase is Setup, and all three LED channels are
commanded off, regardless of the prior test; the actual ColorMix, however,
is not reset by the block — it keeps its prior value (it is only
overwritten channel by channel during the following Setup polls). -/
theorem C1_newTest_reset (s : TestFSMState) (vx vy : Nat) (bp tp : Bool) :
    (testReset s).guessColor = ⟨false, false, false⟩ ∧
    (testReset s).arrowPos = TOP_OPTION_POS ∧
    (testReset s).testState = testState_t.setup ∧
    (testReset s).actualColor = s.actualColor ∧
    (testFSM true vx vy bp tp s).ledCmds =
      [(color_t.BLUE, false), (color_t.GREEN, false), (color_t.RED, false)] := by
  exact ⟨rfl, rfl, rfl, rfl, rfl⟩

/-- C3: starting from a fresh new-test reset, each of the first three
Setup polls samples one random bit — the xor of the parities of the two
sampled magnitudes — and assigns it to exactly one channel in cursor order
Red, Green, Blue (the other channels keep their previous values on each
poll); after the three polls every channel flag equals its sampled parity
bit, the phase is still Setup, and the guessed mix is untouched
(all-false). -/
theorem C3_setup_assigns_parity_bits (s : TestFSMState) (x1 y1 x2 y2 x3 y3 : Nat)
    (b1 t1 b2 t2 b3 t3 : Bool) :
    let o1 := testFSM true x1 y1 b1 t1 s
    let o2 := testFSM false x2 y2 b2 t2 o1.st
    let o3 := testFSM false x3 y3 b3 t3 o2.st
    o1.sampled = true ∧ o2.sampled = true ∧ o3.sampled = true ∧
    o1.st.actualColor =
      ⟨randomBit x1 y1, s.actualColor.hasGreen, s.actualColor.hasBlue⟩ ∧
    o2.st.actualColor =
      ⟨randomBit x1 y1, randomBit x2 y2, s.actualColor.hasBlue⟩ ∧
    o3.st.actualColor =
      ⟨randomBit x1 y1, randomBit x2 y2, randomBit x3 y3⟩ ∧
    o1.st.testState = testState_t.setup ∧
    o2.st.testState = testState_t.setup ∧
    o3.st.testState = testState_t.setup ∧
    o3.st.guessColor = ⟨false, false, false⟩ := by
  exact ⟨rfl, rfl, rfl, rfl, rfl, rfl, rfl, rfl, rfl, rfl⟩

/-- C8: in the Testing phase (without a new-test signal) every poll of
`testFSM` delegates to `guess`: the returned `finished` flag is exactly
the one `guess` reports, the arrow and guessed mix are exactly those
`guess` produced, the phase stays Testing and the actual mix is
unchanged, and the result location is written — with
`match(guessed, actual)` — exactly when `finished` is true. -/
theorem C8_testing_delegates (s : TestFSMState) (vx vy : Nat) (bp tp : Bool)
    (h : s.testState = testState_t.testing) :
    let g := guess bp tp s.arrowPos s.guessColor
    let o := testFSM false vx vy bp tp s
    o.finished = g.finished ∧
    o.st.testState = testState_t.testing ∧
    o.st.arrowPos = g.arrowPos ∧
    o.st.guessColor = g.guessColor ∧
    o.st.actualColor = s.actualColor ∧
    o.st.colorIndex = s.colorIndex ∧
    o.result =
      (if g.finished then some (matchMix g.guessColor s.actualColor)
       else none) ∧
    o.ledCmds = [] ∧
    o.sampled = false := by
  rcases s with ⟨ac, gc, ci, ts, ap⟩
  change ts = testState_t.testing at h
  subst h
  exact ⟨rfl, rfl, rfl, rfl, rfl, rfl, rfl, rfl, rfl⟩

/-- C8 witness: instance in the testing phase with the arrow on the End
row and a select edge, so `guess` reports completion and the result is
written. -/
theorem C8_testing_delegates_witness :
    tstTesting.testState = testState_t.testing ∧
    (let g := guess false true tstTesting.arrowPos tstTesting.guessColor
     let o := testFSM false 0 0 false true tstTesting
     o.finished = g.finished ∧
     o.st.testState = testState_t.testing ∧
     o.st.arrowPos = g.arrowPos ∧
     o.st.guessColor = g.guessColor ∧
     o.st.actualColor = tstTesting.actualColor ∧
     o.st.colorIndex = tstTesting.colorIndex ∧
     o.result =
       (if g.finished then some (matchMix g.guessColor tstTesting.actualColor)
        else none) ∧
     o.ledCmds = [] ∧
     o.sampled = false) :=
  ⟨rfl, C8_testing_delegates tstTesting 0 0 false true rfl⟩

/-- C10 (implicit): from a new-test reset, Setup occupies four consecutive
polls: the phase is still Setup after polls one to three, and only the
fourth poll switches to LightUp; that fourth poll still reads the analog
sampler and its random bit is discarded (the actual mix is unchanged by
poll four); no LED-on command is issued during any of the four polls (the
only LED commands are the reset-block off commands of poll one), so the
LEDs light up no earlier than the fifth poll. -/
theorem C10_setup_takes_four_polls (s : TestFSMState)
    (x1 y1 x2 y2 x3 y3 x4 y4 : Nat) (b1 t1 b2 t2 b3 t3 b4 t4 : Bool) :
    let o1 := testFSM true x1 y1 b1 t1 s
    let o2 := testFSM false x2 y2 b2 t2 o1.st
    let o3 := testFSM false x3 y3 b3 t3 o2.st
    let o4 := testFSM false x4 y4 b4 t4 o3.st
    o1.st.testState = testState_t.setup ∧
    o2.st.testState = testState_t.setup ∧
    o3.st.testState = testState_t.setup ∧
    o4.st.testState = testState_t.lightup ∧
    o4.sampled = true ∧
    o4.st.actualColor = o3.st.actualColor ∧
    o4.finished = false ∧
    o1.ledCmds = resetLedCmds ∧
    o2.ledCmds = [] ∧ o3.ledCmds = [] ∧ o4.ledCmds = [] ∧
    (∀ c : color_t, (c, true) ∉ resetLedCmds) := by
  refine ⟨rfl, rfl, rfl, rfl, rfl, rfl, rfl, rfl, rfl, rfl, rfl, ?_⟩
  intro c
  cases c <;> decide

/-- C2 (code evaluation): every timer start performed by `ScreensFSM` —
including the one on the Test → TestEnd transition — passes `OPENING_WAIT`
to `InitOneShotSWTimer`, the same duration used on the Inception → Opening
transition, so the end-screen delay is not longer; the longer constant
`ENDTEST_WAIT` exists in the source (it exceeds `OPENING_WAIT`) but is
never handed to the timer. -/
theorem C2_endtest_timer_not_longer (i : ScreensInput) (s : ScreensState) :
    ((ScreensFSM i s).timerInit = none ∨
      (ScreensFSM i s).timerInit = some OPENING_WAIT) ∧
    OPENING_WAIT < ENDTEST_WAIT := by
  refine ⟨?_, by decide⟩
  rcases s with ⟨st, nt, t⟩
  cases st <;> dsimp only [ScreensFSM] <;> try split
  all_goals simp

/-- At an OPENING poll on which the timer has not expired, `ScreensFSM`
leaves its whole static state unchanged. -/
theorem ScreensFSM_opening_stays (i : ScreensInput) (s : ScreensState)
    (hs : s.state = screenState_t.OPENING) (hi : i.swTimerExpired = false) :
    (ScreensFSM i s).st = s := by
  rcases s with ⟨st, nt, t⟩
  change st = screenState_t.OPENING at hs
  subst hs
  dsimp only [ScreensFSM]
  rw [hi]
  rfl

/-- C9: from an OPENING state, any run of polls on which the timer never
reports expired leaves the state unchanged (still Opening), and the next
poll moves to INSTRUCTIONS (rendering the instructions screen) exactly
when the timer reports expired on it — so the transition happens exactly
on the first poll where the timer first reports expired, never earlier. -/
theorem C9_opening_until_expiry (s : ScreensState) (inputs : List ScreensInput)
    (i : ScreensInput) (hs : s.state = screenState_t.OPENING)
    (hall : ∀ j ∈ inputs, j.swTimerExpired = false) :
    screensRun inputs s = s ∧
    ((ScreensFSM i s).st.state =
      if i.swTimerExpired then screenState_t.INSTRUCTIONS
      else screenState_t.OPENING) ∧
    (ScreensFSM i s).drawInstructionsScreen = i.swTimerExpired := by
  have hrun : screensRun inputs s = s := by
    induction inputs with
    | nil => rfl
    | cons j rest ih =>
        have h1 : (ScreensFSM j s).st = s :=
          ScreensFSM_opening_stays j s hs (hall j (List.mem_cons_self j rest))
        show screensRun rest (ScreensFSM j s).st = s
        rw [h1]
        exact ih (fun k hk => hall k (List.mem_cons_of_mem j hk))
  refine ⟨hrun, ?_, ?_⟩ <;>
    · rcases s with ⟨st, nt, t⟩
      change st = screenState_t.OPENING at hs
      subst hs
      cases hi : i.swTimerExpired <;> dsimp only [ScreensFSM] <;> rw [hi] <;> rfl

/-- C9 witness: instance with two quiet polls then an expired poll from a
concrete OPENING state. -/
theorem C9_opening_until_expiry_witness :
    (scrOpening.state = screenState_t.OPENING ∧
     (∀ j ∈ [inpQuiet, inpQuiet], j.swTimerExpired = false)) ∧
    (screensRun [inpQuiet, inpQuiet] scrOpening = scrOpening ∧
     ((ScreensFSM inpExpired scrOpening).st.state =
       if inpExpired.swTimerExpired then screenState_t.INSTRUCTIONS
       else screenState_t.OPENING) ∧
     (ScreensFSM inpExpired scrOpening).drawInstructionsScreen =
       inpExpired.swTimerExpired) :=
  ⟨⟨rfl, by decide⟩,
   C9_opening_until_expiry scrOpening [inpQuiet, inpQuiet] inpExpired rfl
     (by decide)⟩

end ColorTest
